import Mathlib

/-!
Shallow embedding of the reactylon scene-lifecycle core
(`packages/library/src/components/core/Engine.tsx`) and of the
parameter-name-recovery utility.  Pure functions model the code; the
imperative initialization and teardown sequences are modelled as functions
returning an explicit event trace in execution order.
-/

namespace Reactylon

/-! ## Render Loop Driver (Engine.tsx lines 100-111)

A scene is modelled by the fields the callback reads and writes: the active
camera (optional), the camera attachment list, and a render counter standing
for calls to `scene.render()`.  Camera handles are opaque naturals. -/

structure Scene where
  activeCamera : Option Nat
  cameras : List Nat
  renderCount : Nat
  deriving DecidableEq

/-- The body of the `runRenderLoop` callback for a single scene:
`if (!scene.activeCamera) console.warn('no active camera..');`
then `if (scene.cameras?.length > 0) scene.render();`.
Returns the updated scene and the warnings emitted. -/
def renderScene (s : Scene) : Scene × List String :=
  let warns := if s.activeCamera = none then ["no active camera.."] else []
  let s2 := if s.cameras.length > 0 then { s with renderCount := s.renderCount + 1 } else s
  (s2, warns)

/-- `engine.current!.scenes.forEach(scene => ...)`: each owned scene is
processed independently, in insertion order. -/
def runRenderLoopCallback (scenes : List Scene) : List Scene × List String :=
  (scenes.map fun s => (renderScene s).1, scenes.foldr (fun s acc => (renderScene s).2 ++ acc) [])

/-! ## Teardown (Engine.tsx lines 186-195)

The cleanup closure returned by `initializeScene`:
```
window.removeEventListener('resize', onResizeWindow);
engine.current!.dispose();
Reactylon.render(null, rootContainer.current!);
rootContainer.current = null;
```
State records whether the resize listener is installed, how many times the
engine's `dispose` has been invoked, and the root container reference. -/

inductive TeardownEvent where
  | removeResizeListener
  | disposeEngine
  | unmountRoot (container : Option Nat)
  | clearRootRef
  deriving DecidableEq

structure LifecycleState where
  resizeListenerInstalled : Bool
  engineDisposeCount : Nat
  rootContainerRef : Option Nat
  deriving DecidableEq

/-- The teardown closure as a state transition together with the trace of the
four statements it executes, in source order.  The closure contains no guard:
every invocation re-executes the whole sequence. -/
def teardown (st : LifecycleState) : LifecycleState × List TeardownEvent :=
  ({ resizeListenerInstalled := false
     engineDisposeCount := st.engineDisposeCount + 1
     rootContainerRef := none },
   [.removeResizeListener, .disposeEngine, .unmountRoot st.rootContainerRef, .clearRootRef])

/-! ## Initialization (Engine.tsx lines 90-182)

`initializeScene` is the async procedure run by the mount effect.  It is
modelled as a pure function from the props to the produced handles plus an
event trace in execution order; `await` points appear as ordinary events in
the sequential trace (the code awaits them in sequence).  Engine, scene, XR
session and GUI-manager handles are opaque naturals (one of each is created
per run, so the fresh id is 0). -/

structure Vector3 where
  x : Rat
  y : Rat
  z : Rat
  deriving DecidableEq

/-- `new Vector3(0, -9.8, 0)`, the gravity used when none is supplied. -/
def defaultGravity : Vector3 := { x := 0, y := -49/5, z := 0 }

/-- `physicsOptions: { gravity?, plugin? }` — the plugin handle is opaque. -/
structure PhysicsOptions where
  gravity : Option Vector3
  plugin : Option String
  deriving DecidableEq

/-- The `engine` prop: canvasId plus the engine-construction arguments and
the presence of a custom loader component. -/
structure EngineProps where
  canvasId : String
  antialias : Option Bool
  engineOptions : Option String
  adaptToDeviceRatio : Option Bool
  loader : Bool
  deriving DecidableEq

/-- The optional `scene` prop.  `onSceneReady` records whether the optional
callback was supplied (the code calls it with `onSceneReady?.(...)`). -/
structure SceneProps where
  sceneOptions : Option String
  isInteractiveInspector : Option Bool
  onSceneReady : Bool
  isGui3DManager : Option Bool
  xrDefaultExperienceOptions : Option String
  physicsOptions : Option PhysicsOptions
  deriving DecidableEq

/-- Destructuring `sceneProps || {}` with default `false`. -/
def resolvedInspector (sp : Option SceneProps) : Bool :=
  (sp.bind (·.isInteractiveInspector)).getD false

/-- Destructuring `sceneProps || {}` with default `true`. -/
def resolvedGui3D (sp : Option SceneProps) : Bool :=
  (sp.bind (·.isGui3DManager)).getD true

def resolvedOnSceneReady (sp : Option SceneProps) : Bool :=
  (sp.map (·.onSceneReady)).getD false

def resolvedXr (sp : Option SceneProps) : Option String :=
  sp.bind (·.xrDefaultExperienceOptions)

def resolvedPhysics (sp : Option SceneProps) : Option PhysicsOptions :=
  sp.bind (·.physicsOptions)

/-- The second argument passed to `scene.enablePhysics`: the supplied plugin,
or `new HavokPlugin(true, await HavokPhysics({...}))` when none is given. -/
inductive PluginChoice where
  | supplied (plugin : String)
  | havokDefault (useDeltaTime : Bool)
  deriving DecidableEq

/-- The `locateFile` callback handed to the Havok module loader:
``file => `https://preview.babylonjs.com/havok/${file}` ``. -/
def havokLocateFile (file : String) : String :=
  "https://preview.babylonjs.com/havok/" ++ file

inductive InitEvent where
  | engineCreated (canvas : String)
  | loadingScreenInstalled
  | renderLoopRegistered
  | resizeListenerAdded
  | sceneCreated (sceneId : Nat)
  | sceneReadyCallback (sceneId : Nat)
  | havokModuleFetch
  | enablePhysics (gravity : Vector3) (plugin : PluginChoice)
  | xrNegotiated
  | inspectorListenerAdded
  | rootContainerBuilt
  | reconcilerRender
  deriving DecidableEq

/-- Lines 96-116: engine construction, optional loading screen, render-loop
registration, resize-listener registration. -/
def engineTrace (canvas : String) (loader : Bool) : List InitEvent :=
  [.engineCreated canvas]
    ++ (if loader then [.loadingScreenInstalled] else [])
    ++ [.renderLoopRegistered, .resizeListenerAdded]

/-- Lines 121-122: `scene.current = new Scene(...)` then
`onSceneReady?.(scene.current)`. -/
def sceneTrace (hasOnSceneReady : Bool) : List InitEvent :=
  [.sceneCreated 0] ++ (if hasOnSceneReady then [.sceneReadyCallback 0] else [])

/-- Lines 125-139: `if (physicsOptions) scene.current.enablePhysics(...)`.
The arguments are evaluated left to right: the gravity expression, then the
plugin expression, whose `||` short-circuits — the remote Havok module is
awaited only when no plugin was supplied. -/
def physicsTrace : Option PhysicsOptions → List InitEvent
  | none => []
  | some po =>
      (if po.plugin = none then [.havokModuleFetch] else [])
        ++ [.enablePhysics (po.gravity.getD defaultGravity)
              (match po.plugin with
               | some p => .supplied p
               | none => .havokDefault true)]

/-- Lines 141-144: `if (xrDefaultExperienceOptions) xrExperience = await ...`. -/
def xrTrace (xo : Option String) : List InitEvent :=
  if xo.isSome then [.xrNegotiated] else []

/-- Lines 146-157: the interactive-inspector keydown listener. -/
def inspectorTrace (b : Bool) : List InitEvent :=
  if b then [.inspectorListenerAdded] else []

/-- Lines 162-182: root-container construction, then `Reactylon.render`. -/
def mountTrace : List InitEvent :=
  [.rootContainerBuilt, .reconcilerRender]

/-- `metadata: { children: [], gui3DManager: isGui3DManager ? new GUI3DManager(scene) : undefined }`. -/
structure Metadata where
  children : List Nat
  gui3DManager : Option Nat
  deriving DecidableEq

structure RootInstance where
  hostInstance : Nat
  metadata : Metadata
  parent : Option Nat
  deriving DecidableEq

structure RootContainer where
  scene : Nat
  rootInstance : RootInstance
  deriving DecidableEq

/-- The value published through `EngineCanvasContext.Provider`. -/
structure EngineCanvasContextValue where
  engine : Option Nat
  canvas : Option String
  deriving DecidableEq

/-- The value published through `SceneContext.Provider`. -/
structure SceneContextValue where
  scene : Option Nat
  sceneReady : Bool
  xrExperience : Option Nat
  deriving DecidableEq

/-- The element handed to `Reactylon.render`: the children wrapped in the two
context providers. -/
inductive Tree where
  | childrenPlaceholder
  | engineCanvasProvider (value : EngineCanvasContextValue) (child : Tree)
  | sceneProvider (value : SceneContextValue) (child : Tree)
  deriving DecidableEq

structure InitResult where
  engine : Nat
  scene : Nat
  xrExperience : Option Nat
  rootContainer : RootContainer
  engineCanvasValue : EngineCanvasContextValue
  sceneValue : SceneContextValue
  tree : Tree
  deriving DecidableEq

/-- The whole `initializeScene` body.  `canvas` is `canvasRef.current`; with
no canvas the guard `if (canvasRef.current)` skips everything and the
function resolves with nothing. -/
def initializeScene (canvas : Option String) (ep : EngineProps) (sp : Option SceneProps) :
    Option InitResult × List InitEvent :=
  match canvas with
  | none => (none, [])
  | some c =>
      let xr : Option Nat := if (resolvedXr sp).isSome then some 0 else none
      let engineCanvasValue : EngineCanvasContextValue := { engine := some 0, canvas := some c }
      let sceneValue : SceneContextValue := { scene := some 0, sceneReady := true, xrExperience := xr }
      (some
        { engine := 0
          scene := 0
          xrExperience := xr
          rootContainer :=
            { scene := 0
              rootInstance :=
                { hostInstance := 0
                  metadata :=
                    { children := []
                      gui3DManager := if resolvedGui3D sp then some 0 else none }
                  parent := none } }
          engineCanvasValue := engineCanvasValue
          sceneValue := sceneValue
          tree := .engineCanvasProvider engineCanvasValue (.sceneProvider sceneValue .childrenPlaceholder) },
       engineTrace c ep.loader
         ++ sceneTrace (resolvedOnSceneReady sp)
         ++ physicsTrace (resolvedPhysics sp)
         ++ xrTrace (resolvedXr sp)
         ++ inspectorTrace (resolvedInspector sp)
         ++ mountTrace)

/-- `p`-events come strictly before `q`-events in the list. -/
def Precedes (p q : InitEvent → Prop) (l : List InitEvent) : Prop :=
  ∀ i j a b, l.get? i = some a → l.get? j = some b → p a → q b → i < j

def isPhysicsEvt : InitEvent → Prop
  | .havokModuleFetch => True
  | .enablePhysics _ _ => True
  | _ => False

def isXrEvt : InitEvent → Prop
  | .xrNegotiated => True
  | _ => False

def isSceneReadyEvt : InitEvent → Prop
  | .sceneReadyCallback _ => True
  | _ => False

def isFetchEvt : InitEvent → Prop
  | .havokModuleFetch => True
  | _ => False

def isEnablePhysicsEvt : InitEvent → Prop
  | .enablePhysics _ _ => True
  | _ => False

end Reactylon

namespace Params

/-! ## Parameter-name recovery utility

Embedding of `getClassConstructorParams`, `getFunctionParams`, `traverse`,
`getDestructuredParameterName` and `getRestParameterName`.  The acorn AST is
modelled directly: `Pattern` for the shapes the helpers look at, `Param` for
the entries of a `params` array, `Node` for the node handed to `traverse`.
`console.warn` output is threaded as an explicit log list; a thrown
`TypeError` is an `Except.error`. -/

inductive Pattern where
  | identifier (name : String)
  | memberExpression (property : Pattern)
  | otherPattern (type : String)
  deriving DecidableEq

/-- `getDestructuredParameterName`: Identifier gives its name,
MemberExpression recurses on its property, anything else gives null. -/
def getDestructuredParameterName : Pattern → Option String
  | .identifier n => some n
  | .memberExpression p => getDestructuredParameterName p
  | .otherPattern _ => none

/-- `getRestParameterName`: Identifier gives its name, anything else null. -/
def getRestParameterName : Pattern → Option String
  | .identifier n => some n
  | _ => none

inductive Param where
  | identifier (name : String)
  | assignmentPattern (left : Pattern)
  | restElement (argument : Pattern)
  | unknown (type : String)
  deriving DecidableEq

/-- `param.name` as read by `typeof param.name === 'string'`: only an
Identifier node carries a string `name` field. -/
def paramDotName : Param → Option String
  | .identifier n => some n
  | _ => none

/-- The callback of `node.params.map(...)` inside `traverse`, paired with the
`console.warn` lines it emits. -/
def traverseParam (p : Param) : Option String × List String :=
  match paramDotName p with
  | some n => (some n, [])
  | none =>
      match p with
      | .identifier n => (some n, [])
      | .assignmentPattern left => (getDestructuredParameterName left, [])
      | .restElement argument => (getRestParameterName argument, [])
      | .unknown t => (none, ["Unknown parameter type: " ++ t])

inductive Node where
  | functionDeclaration (params : List Param)
  | functionExpression (params : List Param)
  | otherNode (type : String)
  deriving DecidableEq

/-- `traverse`: on a FunctionDeclaration or FunctionExpression it maps the
params (collecting the warnings in order); on any other node it returns null. -/
def traverse : Node → Option (List (Option String)) × List String
  | .functionDeclaration ps =>
      (some (ps.map fun p => (traverseParam p).1),
       ps.foldr (fun p acc => (traverseParam p).2 ++ acc) [])
  | .functionExpression ps =>
      (some (ps.map fun p => (traverseParam p).1),
       ps.foldr (fun p acc => (traverseParam p).2 ++ acc) [])
  | .otherNode _ => (none, [])

/-- `getFunctionParams`: traverse `ast.body[0]`, then
`(parameters || []).filter(param => param !== null)`.  Returns the recovered
names and the warning log. -/
def getFunctionParams (body0 : Node) : List String × List String :=
  let r := traverse body0
  ((r.1.getD []).filterMap id, r.2)

/-- One entry of the class body: `{ type, kind, value }`. -/
structure ClassMember where
  type : String
  kind : String
  value : Node
  deriving DecidableEq

/-- `getClassConstructorParams`: `.find(x => x.type === 'MethodDefinition' &&
x.kind === 'constructor').value` — when `find` comes back empty the `.value`
dereference throws a TypeError, modelled as `Except.error`. -/
def getClassConstructorParams (body : List ClassMember) : Except String (List String) :=
  match body.find? (fun x => x.type == "MethodDefinition" && x.kind == "constructor") with
  | none => .error "TypeError: cannot read properties of undefined"
  | some m => .ok (((traverse m.value).1.getD []).filterMap id)

end Params

/-! ## Theorems -/

namespace Reactylon

/-- C1 counterexample: a scene with one camera attached but no active camera
receives the no-active-camera warning and is nevertheless rendered (its render
counter moves from 0 to 1), so rendering is not skipped for a scene with no
active camera. -/
theorem renderScene_no_active_camera_still_renders :
    (renderScene { activeCamera := none, cameras := [0], renderCount := 0 }).2 = ["no active camera.."] ∧
    (renderScene { activeCamera := none, cameras := [0], renderCount := 0 }).1.renderCount = 1 :=
  ⟨rfl, rfl⟩

/-- C1 (amended): each render-loop invocation treats every scene of the engine
independently and in insertion order; per scene, the non-fatal diagnostic is
emitted exactly when the scene has no active camera, the scene is rendered
(render counter incremented exactly once, never throwing) exactly when its
camera list is nonempty, and nothing else of the scene changes — the two
checks are independent, so a scene with cameras but no active camera is both
warned about and rendered. -/
theorem renderLoop_warns_iff_no_active_camera_renders_iff_cameras :
    (∀ s : Scene,
      (renderScene s).2 = (if s.activeCamera = none then ["no active camera.."] else []) ∧
      (renderScene s).1.renderCount = (if s.cameras.isEmpty then s.renderCount else s.renderCount + 1) ∧
      (renderScene s).1.cameras = s.cameras ∧
      (renderScene s).1.activeCamera = s.activeCamera) ∧
    (∀ scenes : List Scene,
      (runRenderLoopCallback scenes).1 = scenes.map fun s => (renderScene s).1) := by
  refine ⟨fun s => ?_, fun scenes => rfl⟩
  obtain ⟨a, cams, n⟩ := s
  cases cams <;> cases a <;> simp [renderScene]

/-- Helper: if no `p`-event lies in the right part and no `q`-event lies in
the left part, every `p`-event precedes every `q`-event in the whole list. -/
theorem precedes_append {p q : InitEvent → Prop} {l₁ l₂ : List InitEvent}
    (h₁ : ∀ x ∈ l₂, ¬ p x) (h₂ : ∀ x ∈ l₁, ¬ q x) : Precedes p q (l₁ ++ l₂) := by
  intro i j a b ha hb hpa hqb
  have hi : i < l₁.length := by
    by_contra h
    push_neg at h
    rw [List.get?_append_right h] at ha
    exact h₁ a (List.get?_mem ha) hpa
  have hj : l₁.length ≤ j := by
    by_contra h
    push_neg at h
    rw [List.get?_append h] at hb
    exact h₂ b (List.get?_mem hb) hqb
  omega

/-- Helper: the events the engine-construction segment can contain. -/
theorem mem_engineTrace {c : String} {loader : Bool} {x : InitEvent}
    (hx : x ∈ engineTrace c loader) :
    x = .engineCreated c ∨ x = .loadingScreenInstalled ∨
      x = .renderLoopRegistered ∨ x = .resizeListenerAdded := by
  cases loader <;> simp [engineTrace] at hx <;> tauto

/-- Helper: the events the scene-construction segment can contain. -/
theorem mem_sceneTrace {b : Bool} {x : InitEvent} (hx : x ∈ sceneTrace b) :
    x = .sceneCreated 0 ∨ x = .sceneReadyCallback 0 := by
  cases b <;> simp [sceneTrace] at hx <;> tauto

/-- Helper: the events the physics segment can contain. -/
theorem mem_physicsTrace {po : Option PhysicsOptions} {x : InitEvent}
    (hx : x ∈ physicsTrace po) :
    x = .havokModuleFetch ∨ ∃ g pc, x = .enablePhysics g pc := by
  match po with
  | none => simp [physicsTrace] at hx
  | some po =>
      match hp : po.plugin with
      | none => simp [physicsTrace, hp] at hx; tauto
      | some p => simp [physicsTrace, hp] at hx; tauto

/-- Helper: the events the XR segment can contain. -/
theorem mem_xrTrace {xo : Option String} {x : InitEvent} (hx : x ∈ xrTrace xo) :
    x = .xrNegotiated := by
  cases xo <;> simp [xrTrace] at hx <;> tauto

/-- Helper: the events the inspector segment can contain. -/
theorem mem_inspectorTrace {b : Bool} {x : InitEvent} (hx : x ∈ inspectorTrace b) :
    x = .inspectorListenerAdded := by
  cases b <;> simp_all [inspectorTrace]

/-- Helper: the events the mount segment can contain. -/
theorem mem_mountTrace {x : InitEvent} (hx : x ∈ mountTrace) :
    x = .rootContainerBuilt ∨ x = .reconcilerRender := by
  simp [mountTrace] at hx; tauto

/-- Helper: kinds of events absent from the engine-construction segment. -/
theorem engineTrace_classify {c : String} {l : Bool} :
    ∀ x ∈ engineTrace c l,
      ¬ isPhysicsEvt x ∧ ¬ isXrEvt x ∧ ¬ isSceneReadyEvt x ∧
        ¬ isFetchEvt x ∧ ¬ isEnablePhysicsEvt x ∧ x ≠ .reconcilerRender := by
  intro x hx
  rcases mem_engineTrace hx with h | h | h | h <;> subst h <;>
    simp [isPhysicsEvt, isXrEvt, isSceneReadyEvt, isFetchEvt, isEnablePhysicsEvt]

/-- Helper: kinds of events absent from the scene-construction segment. -/
theorem sceneTrace_classify {b : Bool} :
    ∀ x ∈ sceneTrace b,
      ¬ isPhysicsEvt x ∧ ¬ isXrEvt x ∧ ¬ isFetchEvt x ∧
        ¬ isEnablePhysicsEvt x ∧ x ≠ .reconcilerRender := by
  intro x hx
  rcases mem_sceneTrace hx with h | h <;> subst h <;>
    simp [isPhysicsEvt, isXrEvt, isFetchEvt, isEnablePhysicsEvt]

/-- Helper: kinds of events absent from the physics segment. -/
theorem physicsTrace_classify {po : Option PhysicsOptions} :
    ∀ x ∈ physicsTrace po,
      ¬ isSceneReadyEvt x ∧ ¬ isXrEvt x ∧ x ≠ .reconcilerRender := by
  intro x hx
  rcases mem_physicsTrace hx with h | ⟨g, pc, h⟩ <;> subst h <;>
    simp [isSceneReadyEvt, isXrEvt]

/-- Helper: kinds of events absent from the XR segment. -/
theorem xrTrace_classify {xo : Option String} :
    ∀ x ∈ xrTrace xo,
      ¬ isSceneReadyEvt x ∧ ¬ isPhysicsEvt x ∧ ¬ isFetchEvt x ∧
        ¬ isEnablePhysicsEvt x ∧ x ≠ .reconcilerRender := by
  intro x hx
  rw [mem_xrTrace hx]
  simp [isSceneReadyEvt, isPhysicsEvt, isFetchEvt, isEnablePhysicsEvt]

/-- Helper: kinds of events absent from the inspector segment. -/
theorem inspectorTrace_classify {b : Bool} :
    ∀ x ∈ inspectorTrace b,
      ¬ isSceneReadyEvt x ∧ ¬ isPhysicsEvt x ∧ ¬ isXrEvt x ∧
        ¬ isFetchEvt x ∧ ¬ isEnablePhysicsEvt x ∧ x ≠ .reconcilerRender := by
  intro x hx
  rw [mem_inspectorTrace hx]
  simp [isSceneReadyEvt, isPhysicsEvt, isXrEvt, isFetchEvt, isEnablePhysicsEvt]

/-- Helper: kinds of events absent from the mount segment. -/
theorem mountTrace_classify {x : InitEvent} (hx : x ∈ mountTrace) :
    ¬ isSceneReadyEvt x ∧ ¬ isPhysicsEvt x ∧ ¬ isXrEvt x ∧
      ¬ isFetchEvt x ∧ ¬ isEnablePhysicsEvt x := by
  rcases mem_mountTrace hx with h | h <;> subst h <;>
    simp [isSceneReadyEvt, isPhysicsEvt, isXrEvt, isFetchEvt, isEnablePhysicsEvt]

/-- C2 counterexample: starting from a mounted state, the teardown closure
disposes the engine at step 2 and unmounts the reconciliation root only at
step 3 — not unmount-before-dispose as claimed — and a second teardown signal
disposes the engine a second time (and renders the empty tree against the
by-then-null root reference), so repeated teardown is not a no-op. -/
theorem teardown_dispose_before_unmount_and_repeats :
    (teardown { resizeListenerInstalled := true, engineDisposeCount := 0, rootContainerRef := some 0 }).2.get? 1 = some .disposeEngine ∧
    (teardown { resizeListenerInstalled := true, engineDisposeCount := 0, rootContainerRef := some 0 }).2.get? 2 = some (.unmountRoot (some 0)) ∧
    (teardown (teardown { resizeListenerInstalled := true, engineDisposeCount := 0, rootContainerRef := some 0 }).1).1.engineDisposeCount = 2 ∧
    (teardown (teardown { resizeListenerInstalled := true, engineDisposeCount := 0, rootContainerRef := some 0 }).1).2.get? 2 = some (.unmountRoot none) :=
  ⟨rfl, rfl, rfl, rfl⟩

/-- C2 (amended): on a teardown signal the cleanup closure performs, in
order: remove the window-resize listener, dispose the engine, unmount the
reconciliation root (render the empty tree against the root-container
reference), and clear the root-container reference; the closure carries no
once-guard, so a repeated teardown signal re-runs the whole sequence and
disposes the engine a second time rather than being a no-op. -/
theorem teardown_sequence (st : LifecycleState) :
    (teardown st).2 =
      [.removeResizeListener, .disposeEngine, .unmountRoot st.rootContainerRef, .clearRootRef] ∧
    (teardown st).1 =
      { resizeListenerInstalled := false
        engineDisposeCount := st.engineDisposeCount + 1
        rootContainerRef := none } ∧
    (teardown (teardown st).1).1.engineDisposeCount = st.engineDisposeCount + 2 :=
  ⟨rfl, rfl, rfl⟩

/-- C3: when the caller supplies a scene-ready callback, initialization
invokes it synchronously — immediately after scene construction, with the
newly constructed scene — before physics enablement and before XR
negotiation; and every physics event (the awaited remote module load
included) precedes XR negotiation, since both are awaited in sequence. -/
theorem sceneReady_before_physics_and_xr
    (c : String) (ep : EngineProps) (so : Option String) (ii : Option Bool)
    (gui : Option Bool) (xo : Option String) (po : Option PhysicsOptions) :
    (∃ i,
      (initializeScene (some c) ep (some ⟨so, ii, true, gui, xo, po⟩)).2.get? i =
          some (.sceneCreated 0) ∧
      (initializeScene (some c) ep (some ⟨so, ii, true, gui, xo, po⟩)).2.get? (i + 1) =
          some (.sceneReadyCallback 0)) ∧
    Precedes isSceneReadyEvt (fun e => isPhysicsEvt e ∨ isXrEvt e)
      (initializeScene (some c) ep (some ⟨so, ii, true, gui, xo, po⟩)).2 ∧
    Precedes isPhysicsEvt isXrEvt
      (initializeScene (some c) ep (some ⟨so, ii, true, gui, xo, po⟩)).2 := by
  have htr : (initializeScene (some c) ep (some ⟨so, ii, true, gui, xo, po⟩)).2
      = engineTrace c ep.loader ++ (sceneTrace true ++ (physicsTrace po ++
          (xrTrace xo ++ (inspectorTrace (ii.getD false) ++ mountTrace)))) := by
    simp [initializeScene, resolvedOnSceneReady, resolvedPhysics, resolvedXr,
      resolvedInspector]
  rw [htr]
  refine ⟨⟨(engineTrace c ep.loader).length, ?_, ?_⟩, ?_, ?_⟩
  · rw [List.get?_append_right (le_refl _), Nat.sub_self]
    rfl
  · rw [List.get?_append_right (Nat.le_add_right _ 1)]
    rw [show (engineTrace c ep.loader).length + 1 - (engineTrace c ep.loader).length = 1
      by omega]
    rfl
  · rw [← List.append_assoc]
    apply precedes_append
    · intro x hx
      simp only [List.mem_append] at hx
      rcases hx with h | h | h | h
      · exact (physicsTrace_classify x h).1
      · exact (xrTrace_classify x h).1
      · exact (inspectorTrace_classify x h).1
      · exact (mountTrace_classify h).1
    · intro x hx
      simp only [List.mem_append] at hx
      rcases hx with h | h
      · have h2 := engineTrace_classify x h
        rintro (hp | hx2)
        · exact h2.1 hp
        · exact h2.2.1 hx2
      · have h2 := sceneTrace_classify x h
        rintro (hp | hx2)
        · exact h2.1 hp
        · exact h2.2.1 hx2
  · have hre : engineTrace c ep.loader ++ (sceneTrace true ++ (physicsTrace po ++
        (xrTrace xo ++ (inspectorTrace (ii.getD false) ++ mountTrace))))
        = (engineTrace c ep.loader ++ (sceneTrace true ++ physicsTrace po)) ++
            (xrTrace xo ++ (inspectorTrace (ii.getD false) ++ mountTrace)) := by
      simp [List.append_assoc]
    rw [hre]
    apply precedes_append
    · intro x hx
      simp only [List.mem_append] at hx
      rcases hx with h | h | h
      · exact (xrTrace_classify x h).2.1
      · exact (inspectorTrace_classify x h).2.1
      · exact (mountTrace_classify h).2.1
    · intro x hx
      simp only [List.mem_append] at hx
      rcases hx with h | h | h
      · exact (engineTrace_classify x h).2.1
      · exact (sceneTrace_classify x h).2.1
      · exact (physicsTrace_classify x h).2.1

/-- Helper: the trace produced by a run that found its canvas, segment by
segment in source order. -/
theorem initializeScene_trace (c : String) (ep : EngineProps) (sp : Option SceneProps) :
    (initializeScene (some c) ep sp).2 =
      engineTrace c ep.loader ++ (sceneTrace (resolvedOnSceneReady sp) ++
        (physicsTrace (resolvedPhysics sp) ++ (xrTrace (resolvedXr sp) ++
          (inspectorTrace (resolvedInspector sp) ++ mountTrace)))) := by
  simp [initializeScene]

/-- C4: mount builds the root container with exactly the claimed shape —
`scene`, and a root instance whose host instance is the scene, whose metadata
has an empty children list and a GUI-3D manager exactly when the flag
(default on) says so, and whose parent reference is absent — and then calls
the reconciler's render entry point with the UI tree wrapped in the
engine/canvas provider outermost and the scene provider inside it. -/
theorem mount_rootContainer_shape (c : String) (ep : EngineProps) (sp : Option SceneProps) :
    ∃ r, (initializeScene (some c) ep sp).1 = some r ∧
      r.rootContainer.scene = r.scene ∧
      r.rootContainer.rootInstance.hostInstance = r.scene ∧
      r.rootContainer.rootInstance.metadata.children = [] ∧
      r.rootContainer.rootInstance.metadata.gui3DManager.isSome = resolvedGui3D sp ∧
      resolvedGui3D none = true ∧
      r.rootContainer.rootInstance.parent = none ∧
      r.tree = .engineCanvasProvider r.engineCanvasValue
        (.sceneProvider r.sceneValue .childrenPlaceholder) ∧
      InitEvent.reconcilerRender ∈ (initializeScene (some c) ep sp).2 := by
  refine ⟨_, rfl, rfl, rfl, rfl, ?_, rfl, rfl, rfl, ?_⟩
  · cases h : resolvedGui3D sp <;> simp [h]
  · rw [initializeScene_trace]
    simp [mountTrace]

/-- C5: the published scene-context snapshot's XR field is non-null only when
XR negotiation happened, and the negotiation event precedes the reconciler
render call that publishes the snapshot; the field is null whenever no XR
options were supplied; and mounting canvas `c1` with `antialias := true` and
no scene/physics/XR options publishes exactly the snapshots
`{engine, canvas c1}` and `{scene, sceneReady := true, xrExperience := null}`. -/
theorem xr_snapshot_only_after_negotiation (c : String) (ep : EngineProps) (sp : Option SceneProps) :
    (∀ r, (initializeScene (some c) ep sp).1 = some r →
      (r.sceneValue.xrExperience.isSome = true →
        InitEvent.xrNegotiated ∈ (initializeScene (some c) ep sp).2 ∧
        Precedes isXrEvt (fun e => e = .reconcilerRender) (initializeScene (some c) ep sp).2) ∧
      (resolvedXr sp = none → r.sceneValue.xrExperience = none)) ∧
    (∃ r, (initializeScene (some "c1")
        { canvasId := "c1", antialias := some true, engineOptions := none,
          adaptToDeviceRatio := none, loader := false } none).1 = some r ∧
      r.engineCanvasValue = { engine := some 0, canvas := some "c1" } ∧
      r.sceneValue = { scene := some 0, sceneReady := true, xrExperience := none }) := by
  constructor
  · intro r hr
    simp only [initializeScene] at hr
    injection hr with hr
    subst hr
    constructor
    · intro hsome
      have hxr : (resolvedXr sp).isSome = true := by
        rcases hx : resolvedXr sp with _ | v
        · simp [hx] at hsome
        · rfl
      constructor
      · rw [initializeScene_trace]
        simp only [List.mem_append]
        refine Or.inr (Or.inr (Or.inr (Or.inl ?_)))
        simp [xrTrace, hxr]
      · rw [initializeScene_trace, show
          engineTrace c ep.loader ++ (sceneTrace (resolvedOnSceneReady sp) ++
            (physicsTrace (resolvedPhysics sp) ++ (xrTrace (resolvedXr sp) ++
              (inspectorTrace (resolvedInspector sp) ++ mountTrace))))
          = (engineTrace c ep.loader ++ (sceneTrace (resolvedOnSceneReady sp) ++
              (physicsTrace (resolvedPhysics sp) ++ xrTrace (resolvedXr sp)))) ++
              (inspectorTrace (resolvedInspector sp) ++ mountTrace) by
          simp [List.append_assoc]]
        apply precedes_append
        · intro x hx
          simp only [List.mem_append] at hx
          rcases hx with h | h
          · exact (inspectorTrace_classify x h).2.2.1
          · exact (mountTrace_classify h).2.2.1
        · intro x hx
          simp only [List.mem_append] at hx
          rcases hx with h | h | h | h
          · exact (engineTrace_classify x h).2.2.2.2.2
          · exact (sceneTrace_classify x h).2.2.2.2
          · exact (physicsTrace_classify x h).2.2
          · exact (xrTrace_classify x h).2.2.2.2
    · intro hx
      simp [hx]
  · exact ⟨_, rfl, rfl, rfl⟩

/-- C6: whenever physics options are supplied, physics is enabled on the
scene with the supplied gravity if one is given and `(0, -9.8, 0)` otherwise,
and with the supplied plugin if one is given and otherwise the Havok plugin
whose native module is awaited from the remote preview location before the
enablement call. -/
theorem physics_gravity_and_plugin_defaults
    (c : String) (ep : EngineProps) (so : Option String) (ii : Option Bool) (osr : Bool)
    (gui : Option Bool) (xo : Option String) (po : PhysicsOptions) :
    InitEvent.enablePhysics (po.gravity.getD { x := 0, y := -49/5, z := 0 })
        (match po.plugin with
         | some p => .supplied p
         | none => .havokDefault true) ∈
      (initializeScene (some c) ep (some ⟨so, ii, osr, gui, xo, some po⟩)).2 ∧
    (∀ g : Option Vector3,
      InitEvent.havokModuleFetch ∈
        (initializeScene (some c) ep (some ⟨so, ii, osr, gui, xo, some ⟨g, none⟩⟩)).2 ∧
      Precedes isFetchEvt isEnablePhysicsEvt
        (initializeScene (some c) ep (some ⟨so, ii, osr, gui, xo, some ⟨g, none⟩⟩)).2) ∧
    (∀ f, havokLocateFile f = "https://preview.babylonjs.com/havok/" ++ f) := by
  refine ⟨?_, ?_, fun f => rfl⟩
  · rw [initializeScene_trace]
    simp only [List.mem_append]
    refine Or.inr (Or.inr (Or.inl ?_))
    rcases hp : po.plugin with _ | p <;>
      simp [physicsTrace, resolvedPhysics, defaultGravity, hp]
  · intro g
    have htr : (initializeScene (some c) ep (some ⟨so, ii, osr, gui, xo, some ⟨g, none⟩⟩)).2
        = (engineTrace c ep.loader ++ (sceneTrace osr ++ [InitEvent.havokModuleFetch])) ++
            ([InitEvent.enablePhysics (g.getD defaultGravity) (.havokDefault true)] ++
              (xrTrace xo ++ (inspectorTrace (ii.getD false) ++ mountTrace))) := by
      simp [initializeScene, resolvedOnSceneReady, resolvedPhysics, resolvedXr,
        resolvedInspector, physicsTrace, List.append_assoc]
    rw [htr]
    constructor
    · simp only [List.mem_append]
      exact Or.inl (Or.inr (Or.inr (by simp)))
    · apply precedes_append
      · intro x hx
        simp only [List.mem_append, List.mem_singleton] at hx
        rcases hx with h | h | h | h
        · subst h
          simp [isFetchEvt]
        · exact (xrTrace_classify x h).2.2.1
        · exact (inspectorTrace_classify x h).2.2.2.1
        · exact (mountTrace_classify h).2.2.2.1
      · intro x hx
        simp only [List.mem_append, List.mem_singleton] at hx
        rcases hx with h | h | h
        · exact (engineTrace_classify x h).2.2.2.2.1
        · exact (sceneTrace_classify x h).2.2.2.1
        · subst h
          simp [isEnablePhysicsEvt]

/-- C7: when physics options are omitted, initialization performs no physics
module fetch and never calls the scene's physics enablement — the trace holds
no physics event at all. -/
theorem no_physics_options_no_physics_work
    (c : String) (ep : EngineProps) (sp : Option SceneProps)
    (h : resolvedPhysics sp = none) :
    (∀ e ∈ (initializeScene (some c) ep sp).2, ¬ isPhysicsEvt e) ∧
    InitEvent.havokModuleFetch ∉ (initializeScene (some c) ep sp).2 ∧
    (∀ g pc, InitEvent.enablePhysics g pc ∉ (initializeScene (some c) ep sp).2) := by
  have hmain : ∀ e ∈ (initializeScene (some c) ep sp).2, ¬ isPhysicsEvt e := by
    rw [initializeScene_trace, h]
    intro x hx
    simp only [physicsTrace, List.mem_append, List.nil_append] at hx
    rcases hx with h1 | h1 | h1 | h1 | h1
    · exact (engineTrace_classify x h1).1
    · exact (sceneTrace_classify x h1).1
    · exact (xrTrace_classify x h1).2.1
    · exact (inspectorTrace_classify x h1).2.1
    · exact (mountTrace_classify h1).2.1
  exact ⟨hmain, fun hm => hmain _ hm trivial, fun g pc hm => hmain _ hm trivial⟩

/-- C7 witness: with no scene props at all (so no physics options), mounting
on canvas c1 produces a trace with no Havok module fetch. -/
theorem no_physics_options_no_physics_work_witness :
    InitEvent.havokModuleFetch ∉
      (initializeScene (some "c1")
        { canvasId := "c1", antialias := some true, engineOptions := none,
          adaptToDeviceRatio := none, loader := false } none).2 :=
  (no_physics_options_no_physics_work "c1"
    { canvasId := "c1", antialias := some true, engineOptions := none,
      adaptToDeviceRatio := none, loader := false } none rfl).2.1

/-- C8: if no canvas element is available when initialization is triggered,
initialization is silently skipped — no engine, scene or root container is
produced, the event trace is empty, and no error is raised (the run resolves
with nothing reported). -/
theorem no_canvas_skips_whole_run (ep : EngineProps) (sp : Option SceneProps) :
    initializeScene none ep sp = (none, []) :=
  rfl

end Reactylon

namespace Params

/-- Helper: the parameter-map warnings accumulate — anything in the seed log
stays in the folded log. -/
theorem mem_foldr_warnings (l : List Param) (acc : List String) (x : String)
    (hx : x ∈ acc) :
    x ∈ l.foldr (fun p a => (traverseParam p).2 ++ a) acc := by
  induction l with
  | nil => exact hx
  | cons hd tl ih => exact List.mem_append.2 (Or.inr ih)

/-- C9: a parameter of unrecognized syntactic shape makes the extraction log
the `Unknown parameter type` diagnostic and produce a null placeholder at
that parameter's position, while the extraction still succeeds and returns
exactly the names it recovers for the remaining parameters (the same result
as if the unknown parameter were absent), for the function path and for the
class-constructor path alike. -/
theorem unknown_param_logged_nulled_rest_kept (ps₁ ps₂ : List Param) (t : String) :
    (∃ l, (traverse (Node.functionDeclaration (ps₁ ++ Param.unknown t :: ps₂))).1 = some l ∧
      l.get? ps₁.length = some none) ∧
    ("Unknown parameter type: " ++ t) ∈
      (traverse (Node.functionDeclaration (ps₁ ++ Param.unknown t :: ps₂))).2 ∧
    (getFunctionParams (Node.functionDeclaration (ps₁ ++ Param.unknown t :: ps₂))).1
      = (getFunctionParams (Node.functionDeclaration (ps₁ ++ ps₂))).1 ∧
    getClassConstructorParams
        [{ type := "MethodDefinition", kind := "constructor",
           value := Node.functionDeclaration (ps₁ ++ Param.unknown t :: ps₂) }]
      = .ok (getFunctionParams (Node.functionDeclaration (ps₁ ++ ps₂))).1 := by
  have hc : (getFunctionParams (Node.functionDeclaration (ps₁ ++ Param.unknown t :: ps₂))).1
      = (getFunctionParams (Node.functionDeclaration (ps₁ ++ ps₂))).1 := by
    simp [getFunctionParams, traverse, List.map_append, List.filterMap_append,
      traverseParam, paramDotName]
  have hfind : List.find?
      (fun x : ClassMember => x.type == "MethodDefinition" && x.kind == "constructor")
      [{ type := "MethodDefinition", kind := "constructor",
         value := Node.functionDeclaration (ps₁ ++ Param.unknown t :: ps₂) }]
      = some { type := "MethodDefinition", kind := "constructor",
               value := Node.functionDeclaration (ps₁ ++ Param.unknown t :: ps₂) } := by
    simp [List.find?]
  refine ⟨⟨_, rfl, ?_⟩, ?_, hc, ?_⟩
  · rw [List.map_append, List.get?_append_right (by simp)]
    simp [traverseParam, paramDotName]
  · simp only [traverse]
    rw [List.foldr_append]
    exact mem_foldr_warnings _ _ _ (by simp [traverseParam, paramDotName])
  · unfold getClassConstructorParams
    rw [hfind]
    simpa [getFunctionParams] using hc

/-- C10: for a class whose source text contains no constructor method
definition, `getClassConstructorParams` throws — the `find` over the class
body yields nothing and its `.value` is dereferenced — instead of returning
an empty parameter list. -/
theorem missing_constructor_throws (body : List ClassMember)
    (h : ∀ m ∈ body, ¬ (m.type = "MethodDefinition" ∧ m.kind = "constructor")) :
    getClassConstructorParams body
      = .error "TypeError: cannot read properties of undefined" := by
  have hfind : body.find?
      (fun x => x.type == "MethodDefinition" && x.kind == "constructor") = none := by
    rw [List.find?_eq_none]
    intro x hx
    simp only [Bool.and_eq_true, beq_iff_eq]
    exact h x hx
  unfold getClassConstructorParams
  rw [hfind]

/-- C10 witness: a class body holding one non-constructor method makes the
extraction throw the TypeError. -/
theorem missing_constructor_throws_witness :
    getClassConstructorParams
        [{ type := "MethodDefinition", kind := "method", value := Node.otherNode "x" }]
      = .error "TypeError: cannot read properties of undefined" :=
  missing_constructor_throws _ (by decide)

end Params
